import Mathlib

/-!
Shallow embedding of the timetable scheduler (src/app.py) and proofs of the
spec claims about it.

Modelling conventions:
* A pandas dataframe is a `Table`: a column-name list plus a list of `Row`s
  projected onto the app schema (a field of a row is meaningful only when the
  matching column name is present; absent columns hold `""`).
* Timestamps (`pd.Timestamp`) are `Nat` at one-second granularity, already
  timezone-naive (the code's `tz_localize(None)` is the identity here, and the
  `strftime('%Y-%m-%d %H:%M:%S')` round-trip for `LastUpdated` is the identity).
* `pd.to_datetime(..., errors='coerce')` on a date column is modelled by a
  strict `YYYY-MM-DD` parser restricted to the years 1678-2261 (within the
  pandas nanosecond-`Timestamp` bounds); any other string coerces to `NaT`
  (`none`).  Likewise `format='%H:%M:00'` / `format='%H:%M'` time parsing.
* Exceptions of the external store (`conn.read` / `conn.update`) are modelled
  as `Except String` values supplied as inputs; Streamlit's `st.stop()` /
  button presses are modelled by an explicit `Resolution` input, and
  `st.session_state` by an explicit `SessionState` record threaded through.
-/

namespace Sched

/-- One decimal digit: `'0'`..`'9'` to its value, anything else fails. -/
def dVal? (c : Char) : Option Nat :=
  if c = '0' then some 0 else if c = '1' then some 1 else if c = '2' then some 2
  else if c = '3' then some 3 else if c = '4' then some 4 else if c = '5' then some 5
  else if c = '6' then some 6 else if c = '7' then some 7 else if c = '8' then some 8
  else if c = '9' then some 9 else none

/-- Digit value to its character (values `≥ 9` clamp to `'9'`; never reached on
digits produced by `dVal?`). -/
def dChar : Nat → Char
  | 0 => '0' | 1 => '1' | 2 => '2' | 3 => '3' | 4 => '4'
  | 5 => '5' | 6 => '6' | 7 => '7' | 8 => '8' | _ => '9'

/-- Calendar date `YYYY-MM-DD`. -/
structure YMD where
  y : Nat
  m : Nat
  d : Nat
deriving DecidableEq, Repr

/-- Time of day `HH:MM`. -/
structure HM where
  h : Nat
  mi : Nat
deriving DecidableEq, Repr

def isLeapYear (y : Nat) : Bool :=
  y % 4 == 0 && (y % 100 != 0 || y % 400 == 0)

def daysInMonth (y m : Nat) : Nat :=
  if m == 2 then (if isLeapYear y then 29 else 28)
  else if m == 4 || m == 6 || m == 9 || m == 11 then 30
  else 31

/-- `pd.to_datetime(date_string, errors='coerce')` restricted to the strict
ISO form the app itself emits; out-of-range or malformed input coerces to
`none` (pandas `NaT`).  1678-2261 keeps every representable date inside the
pandas nanosecond `Timestamp` bounds. -/
def pDateL : List Char → Option YMD
  | [y1, y2, y3, y4, s1, m1, m2, s2, d1, d2] =>
    (dVal? y1).bind fun a =>
      (dVal? y2).bind fun b =>
        (dVal? y3).bind fun c =>
          (dVal? y4).bind fun d =>
            (dVal? m1).bind fun e =>
              (dVal? m2).bind fun f =>
                (dVal? d1).bind fun g =>
                  (dVal? d2).bind fun h =>
                    if s1 = '-' ∧ s2 = '-' ∧ 1678 ≤ 1000 * a + 100 * b + 10 * c + d
                        ∧ 1000 * a + 100 * b + 10 * c + d ≤ 2261
                        ∧ 1 ≤ 10 * e + f ∧ 10 * e + f ≤ 12 ∧ 1 ≤ 10 * g + h
                        ∧ 10 * g + h ≤
                            daysInMonth (1000 * a + 100 * b + 10 * c + d) (10 * e + f) then
                      some ⟨1000 * a + 100 * b + 10 * c + d, 10 * e + f, 10 * g + h⟩
                    else none
  | _ => none

def parseDate (s : String) : Option YMD := pDateL s.toList

/-- `d.strftime('%Y-%m-%d')` (years here are always four digits). -/
def fmtDateL (x : YMD) : List Char :=
  [dChar (x.y / 1000), dChar (x.y / 100 % 10), dChar (x.y / 10 % 10), dChar (x.y % 10),
   '-', dChar (x.m / 10), dChar (x.m % 10), '-', dChar (x.d / 10), dChar (x.d % 10)]

def fmtDate (x : YMD) : String := ⟨fmtDateL x⟩

/-- `pd.to_datetime(t, format='%H:%M', errors='coerce')`. -/
def pHML : List Char → Option HM
  | [h1, h2, c, m1, m2] =>
    (dVal? h1).bind fun a =>
      (dVal? h2).bind fun b =>
        (dVal? m1).bind fun d =>
          (dVal? m2).bind fun e =>
            if c = ':' ∧ 10 * a + b < 24 ∧ 10 * d + e < 60 then
              some ⟨10 * a + b, 10 * d + e⟩
            else none
  | _ => none

def parseTimeHM (s : String) : Option HM := pHML s.toList

/-- `pd.to_datetime(t, format='%H:%M:00', errors='coerce')`: `HH:MM` followed
by the literal seconds `:00`. -/
def pHMS00L : List Char → Option HM
  | [h1, h2, c1, m1, m2, c2, s1, s2] =>
    (dVal? h1).bind fun a =>
      (dVal? h2).bind fun b =>
        (dVal? m1).bind fun d =>
          (dVal? m2).bind fun e =>
            if c1 = ':' ∧ c2 = ':' ∧ s1 = '0' ∧ s2 = '0'
                ∧ 10 * a + b < 24 ∧ 10 * d + e < 60 then
              some ⟨10 * a + b, 10 * d + e⟩
            else none
  | _ => none

def parseTimeHMS00 (s : String) : Option HM := pHMS00L s.toList

/-- `t.strftime('%H:%M')`. -/
def fmtTimeL (t : HM) : List Char :=
  [dChar (t.h / 10), dChar (t.h % 10), ':', dChar (t.mi / 10), dChar (t.mi % 10)]

def fmtTime (t : HM) : String := ⟨fmtTimeL t⟩

/-- One booking row of the store schema. -/
structure Row where
  Name : String
  ID : String
  Date : String
  Time : String
  Notes : String
  LastUpdated : Option Nat
deriving DecidableEq, Repr

/-- A dataframe: its column names and its rows. -/
structure Table where
  cols : List String
  rows : List Row
deriving DecidableEq, Repr

def SCHEMA : List String := ["Name", "ID", "Date", "Time", "Notes", "LastUpdated"]

/-- `pd.DataFrame(columns=["Name","ID","Date","Time","Notes","LastUpdated"])`. -/
def emptyTable : Table := ⟨SCHEMA, []⟩

/-- `replace(['NaT','nan','None','<NA>'], '')` on one text cell. -/
def cleanText (s : String) : String :=
  if s == "NaT" || s == "nan" || s == "None" || s == "<NA>" then "" else s

/-- Date column step of `clean_dataframe`: parse (coercing errors to `NaT`)
then `strftime('%Y-%m-%d')`; `NaT` formats to `NaN`, which the later
`fillna("")` turns into `""`. -/
def cleanDate (s : String) : String :=
  match parseDate s with
  | some x => fmtDate x
  | none => ""

/-- Time column step of `clean_dataframe`: `%H:%M:00` parse, `fillna`-ed by
the `%H:%M` parse, then `strftime('%H:%M')`; unparseable becomes `""`. -/
def cleanTime (s : String) : String :=
  match parseTimeHMS00 s with
  | some t => fmtTime t
  | none =>
    match parseTimeHM s with
    | some t => fmtTime t
    | none => ""

/-- All per-row work of `clean_dataframe`: `astype(str)` (identity here),
the invalid-string replacement on every non-`LastUpdated` column, the Date
and Time normalization, `fillna("")`, and the `LastUpdated` re-parse (the
stringify/parse round-trip of a second-granularity timestamp is the
identity, and `'NaT'` re-parses to `NaT`). -/
def cleanRow (r : Row) : Row :=
  { Name := cleanText r.Name
    ID := cleanText r.ID
    Date := cleanDate (cleanText r.Date)
    Time := cleanTime (cleanText r.Time)
    Notes := cleanText r.Notes
    LastUpdated := r.LastUpdated }

/-- `clean_dataframe(df)`.  Accessing `df['Date']` / `df['Time']` on a frame
missing that column raises a `KeyError`, modelled as `.error`; a missing
`LastUpdated` column is added. -/
def clean_dataframe (t : Table) : Except String Table :=
  if t.cols.contains "Date" && t.cols.contains "Time" then
    .ok ⟨if t.cols.contains "LastUpdated" then t.cols else t.cols ++ ["LastUpdated"],
         t.rows.map cleanRow⟩
  else
    .error "KeyError: Date"

/-- `"429" in str(e)`. -/
def has429L : List Char → Bool
  | '4' :: '2' :: '9' :: _ => true
  | _ :: rest => has429L rest
  | [] => false

def strHas429 (s : String) : Bool := has429L s.toList

/-- The user-facing messages the app can emit on the load/save paths. -/
inductive Msg where
  | rateLimitLoad
  | dbError (e : String)
  | rateLimitSave
  | saveError (e : String)
  | conflictNotice
  | savedOk
deriving DecidableEq, Repr

/-- `load_data_from_google()`: the outcome of `conn.read` (and of the
normalization of its result) is the `fetch` input; every exception is caught
and classified, degrading to the empty, correctly-shaped table. -/
def load_data_from_google (fetch : Except String Table) : Table × Option Msg :=
  match fetch with
  | .error e => (emptyTable, some (if strHas429 e then .rateLimitLoad else .dbError e))
  | .ok df =>
    if df.rows.isEmpty then (emptyTable, none)
    else
      match clean_dataframe df with
      | .ok t => (t, none)
      | .error e => (emptyTable, some (if strHas429 e then .rateLimitLoad else .dbError e))

/-- Lines 103-107: `NaT` unless the fresh fetch is non-empty and has a
`LastUpdated` column, else the column maximum (pandas `max` skips `NaT`;
all-`NaT` gives `NaT`). -/
def maxLastUpdated (t : Table) : Option Nat :=
  if !t.rows.isEmpty && t.cols.contains "LastUpdated" then
    (t.rows.filterMap (·.LastUpdated)).max?
  else
    none

/-- `st.session_state`: the cached snapshot and the watermark
`last_cloud_timestamp`. -/
structure SessionState where
  data : Table
  last_cloud_timestamp : Option Nat
deriving DecidableEq, Repr

/-- `refresh_data()`: re-load, replace the snapshot, and update the watermark
only when the new data is non-empty and has a `LastUpdated` column. -/
def refresh_data (fetch : Except String Table) (s : SessionState) : SessionState :=
  let new_data := (load_data_from_google fetch).1
  { data := new_data
    last_cloud_timestamp :=
      if !new_data.rows.isEmpty && new_data.cols.contains "LastUpdated" then
        (new_data.rows.filterMap (·.LastUpdated)).max?
      else
        s.last_cloud_timestamp }

/-- Which conflict-dialog button (if any) the user pressed. -/
inductive Resolution where
  | reloadClicked
  | forceClicked
  | noButton
deriving DecidableEq, Repr

inductive Outcome where
  | saved
  | writeFailed
  | cleanFailed
  | haltedConflict
  | reloadedConflict
deriving DecidableEq, Repr

/-- External inputs of one `save_with_conflict_detection` call: the outcome of
its fresh `conn.read`, the outcome of the re-read a Reload click performs, the
outcome of `conn.update`, the pressed button, and `pd.Timestamp.now()`. -/
structure SaveInput where
  fetch : Except String Table
  refetch : Except String Table
  write : Except String Unit
  res : Resolution
  now : Nat

structure SaveResult where
  session : SessionState
  written : Option Table
  outcome : Outcome
  conflictFlagged : Bool
  message : Option Msg
deriving DecidableEq, Repr

/-- `clean_df['LastUpdated'] = current_time` on every row. -/
def stampRows (rows : List Row) (now : Nat) : List Row :=
  rows.map fun r => { r with LastUpdated := some now }

/-- Lines 127-151: normalize the candidate, stamp one fresh timestamp on every
row, write, and only after a successful write mutate the session; any
exception is caught and classified by the `"429" in str(e)` test. -/
def save_proceed (inp : SaveInput) (s : SessionState) (new_df : Table) (flag : Bool) :
    SaveResult :=
  match clean_dataframe new_df with
  | .error e =>
    ⟨s, none, .cleanFailed, flag, some (if strHas429 e then .rateLimitSave else .saveError e)⟩
  | .ok cleaned =>
    let clean_df : Table := ⟨cleaned.cols, stampRows cleaned.rows inp.now⟩
    match inp.write with
    | .error e =>
      ⟨s, none, .writeFailed, flag, some (if strHas429 e then .rateLimitSave else .saveError e)⟩
    | .ok _ =>
      ⟨⟨clean_df, some inp.now⟩, some clean_df, .saved, flag, some .savedOk⟩

/-- `save_with_conflict_detection(new_df)` (lines 99-151).  Conflict iff both
the fresh cloud maximum and the session watermark are present and the cloud
one is strictly newer; on conflict Reload re-syncs and aborts, Force proceeds,
and no button halts via `st.stop()` with nothing changed. -/
def save_with_conflict_detection (inp : SaveInput) (s : SessionState) (new_df : Table) :
    SaveResult :=
  let latest_cloud := (load_data_from_google inp.fetch).1
  let cloud_latest_ts := maxLastUpdated latest_cloud
  let user_latest_ts := s.last_cloud_timestamp
  let conflict : Bool :=
    match user_latest_ts, cloud_latest_ts with
    | some u, some c => decide (u < c)
    | _, _ => false
  if conflict then
    match inp.res with
    | .reloadClicked =>
      ⟨refresh_data inp.refetch s, none, .reloadedConflict, true, some .conflictNotice⟩
    | .forceClicked => save_proceed inp s new_df true
    | .noButton => ⟨s, none, .haltedConflict, true, some .conflictNotice⟩
  else
    save_proceed inp s new_df false

/-- Outcome of submitting the add-booking form (lines 333-352): a validation
message, or a save request carrying the concatenated snapshot. -/
inductive SubmitResult where
  | nameRequired
  | slotFull (count limit : Nat)
  | saveRequested (new_df : Table)
deriving DecidableEq, Repr

/-- The add-booking form submit handler: reject when `Name` is empty; when a
positive limit is configured and the slot `(check_date, t_str)` already holds
at least `limit` rows of the current snapshot, reject with the FULL message;
otherwise append the new row (with `LastUpdated = NaT`) and request the save
protocol on the result. -/
def form_submit_add (limit : Nat) (df : Table)
    (name c_id check_date t_str notes : String) : SubmitResult :=
  if name = "" then .nameRequired
  else
    let existing_count :=
      (df.rows.filter fun r => r.Date == check_date && r.Time == t_str).length
    if 0 < limit ∧ limit ≤ existing_count then
      .slotFull existing_count limit
    else
      .saveRequested ⟨df.cols, df.rows ++ [⟨name, c_id, check_date, t_str, notes, none⟩]⟩

/-- `pd.to_datetime(df['Date'] + " " + df['Time'], errors='coerce')` on one
row, restricted to the forms the app stores: an ISO date followed by an
optional `HH:MM` (or `HH:MM:00`) time; a trailing empty time parses to
midnight of the date, anything else coerces to `NaT`. -/
def parse_dt (date time : String) : Option (YMD × HM) :=
  match parseDate date with
  | none => none
  | some x =>
    if time = "" then some (x, ⟨0, 0⟩)
    else
      match parseTimeHM time with
      | some t => some (x, t)
      | none =>
        match parseTimeHMS00 time with
        | some t => some (x, t)
        | none => none

def insertLe {α : Type} (le : α → α → Bool) (a : α) : List α → List α
  | [] => [a]
  | b :: bs => if le a b then a :: b :: bs else b :: insertLe le a bs

/-- `sorted(...)` via insertion sort. -/
def sortLe {α : Type} (le : α → α → Bool) (l : List α) : List α :=
  l.foldr (insertLe le) []

def lexLe (a b : Nat × Nat) : Bool :=
  decide (a.1 < b.1) || (a.1 == b.1 && decide (a.2 ≤ b.2))

/-- `sorted(df['dt'].dt.to_period('M').dropna().unique())`: the distinct
(year, month) periods of the rows whose combined Date+Time parses, ascending. -/
def monthsOfRows (rows : List Row) : List (Nat × Nat) :=
  sortLe lexLe ((rows.filterMap fun r => (parse_dt r.Date r.Time).map fun p =>
    (p.1.y, p.1.m)).dedup)

/-- `f"{year}-{month:02d}-{day:02d}"`. -/
def dayStr (y m d : Nat) : String :=
  toString y ++ "-" ++ (⟨[dChar (m / 10), dChar (m % 10)]⟩ : String)
    ++ "-" ++ (⟨[dChar (d / 10), dChar (d % 10)]⟩ : String)

def timeLeRow (a b : Row) : Bool := !decide (b.Time < a.Time)

/-- `df[df['Date'] == day_str].sort_values('Time')`: the rows rendered into
one day cell, ascending by time-of-day. -/
def cellData (rows : List Row) (y m d : Nat) : List Row :=
  sortLe timeLeRow (rows.filter fun r => r.Date == dayStr y m d)

/-- The day numbers `calendar.Calendar(firstweekday=6).monthdayscalendar`
lays out for a month: each of `1..daysInMonth` exactly once (the zero-padding
cells of the external calendar module hold no bookings). -/
def monthDays (y m : Nat) : List Nat := List.range' 1 (daysInMonth y m)

/-- `df = df.dropna(subset=['dt'])` of the PDF renderer: only rows whose
combined Date+Time parses survive. -/
def pdf_rows (t : Table) : List Row :=
  t.rows.filter fun r => (parse_dt r.Date r.Time).isSome

/-- The month grids the PDF renderer draws: one grid per month of the
row-dropped frame, each day cell holding that day's rows sorted by time. -/
def pdf_grids (t : Table) : List ((Nat × Nat) × List (Nat × List Row)) :=
  (monthsOfRows (pdf_rows t)).map fun ym =>
    (ym, (monthDays ym.1 ym.2).map fun d => (d, cellData (pdf_rows t) ym.1 ym.2 d))

/-- The month grids the Excel renderer draws: the month list drops `NaT`
periods, but the rows themselves are NOT dropped — day cells select from the
full frame. -/
def excel_grids (t : Table) : List ((Nat × Nat) × List (Nat × List Row)) :=
  (monthsOfRows t.rows).map fun ym =>
    (ym, (monthDays ym.1 ym.2).map fun d => (d, cellData t.rows ym.1 ym.2 d))

/-- `df['dt'] = pd.to_datetime(...)` mutates the caller's frame in place:
after the call the shared frame carries a `dt` column. -/
def add_dt_column (t : Table) : Table :=
  ⟨if t.cols.contains "dt" then t.cols else t.cols ++ ["dt"], t.rows⟩

/-- `generate_visual_pdf(df)`: first component is the caller's dataframe after
the call (the in-place `df['dt'] = ...` effect), second the rendered grids. -/
def generate_visual_pdf (t : Table) : Table × List ((Nat × Nat) × List (Nat × List Row)) :=
  (add_dt_column t, pdf_grids t)

/-- `generate_visual_excel(df)`: same shape as the PDF renderer. -/
def generate_visual_excel (t : Table) : Table × List ((Nat × Nat) × List (Nat × List Row)) :=
  (add_dt_column t, excel_grids t)

/-- A sequence of save attempts from one session, each with its own external
outcomes; the session state threads through. -/
def runSaves (s : SessionState) : List (SaveInput × Table) → List SaveResult
  | [] => []
  | step :: rest =>
    let r := save_with_conflict_detection step.1 s step.2
    r :: runSaves r.session rest

/-- The `LastUpdated` stamps assigned by the successful saves of a run. -/
def stampsOf (rs : List SaveResult) : List Nat :=
  rs.filterMap fun r =>
    if r.outcome = .saved then r.session.last_cloud_timestamp else none

/-- Sample remote row carrying `LastUpdated = 10`. -/
def sampleCloudRow : Row := ⟨"Math", "1A", "2026-10-03", "09:00", "", some 10⟩

/-- Sample remote table as fetched fresh from the store. -/
def sampleCloud : Table := ⟨SCHEMA, [sampleCloudRow]⟩

/-- Sample candidate snapshot a session wants to save. -/
def sampleNew : Table := ⟨SCHEMA, [⟨"Math", "1A", "2026-10-03", "09:00", "", none⟩]⟩

/-- Save-call inputs: fetch sees the cloud at 10, write succeeds, no button. -/
def inpConflict : SaveInput := ⟨.ok sampleCloud, .ok sampleCloud, .ok (), .noButton, 42⟩

/-- Same external world, Force-overwrite button pressed. -/
def inpForce : SaveInput := ⟨.ok sampleCloud, .ok sampleCloud, .ok (), .forceClicked, 42⟩

/-- Save-call inputs whose fresh fetch raises. -/
def inpFetchFail : SaveInput := ⟨.error "boom", .ok emptyTable, .ok (), .noButton, 50⟩

/-- Save-call inputs whose remote write raises a rate-limit error. -/
def inpWriteFail : SaveInput :=
  ⟨.ok sampleCloud, .ok sampleCloud, .error "HTTP 429 quota", .noButton, 42⟩

/-- A session whose watermark (5) is behind the cloud maximum (10). -/
def sessionBehind : SessionState := ⟨emptyTable, some 5⟩

/-- A session whose watermark matches the cloud maximum. -/
def sessionCurrent : SessionState := ⟨emptyTable, some 10⟩

/-- A fetched frame lacking the Date/Time columns: normalization raises. -/
def badTable : Table := ⟨["Name"], [sampleCloudRow]⟩

/-- Remote table as it stands after a save stamped 100. -/
def remoteAt100 : Table := ⟨SCHEMA, [⟨"Math", "1A", "2026-10-03", "09:00", "", some 100⟩]⟩

/-- A fresh session (no data, no watermark). -/
def sessionFresh : SessionState := ⟨emptyTable, none⟩

/-- Two successful saves whose wall clocks run backwards: the first save's
clock reads 100, the second (after re-fetching the store the first one wrote)
reads 50. -/
def runDecreasing : List (SaveInput × Table) :=
  [(⟨.ok emptyTable, .ok emptyTable, .ok (), .noButton, 100⟩, sampleNew),
   (⟨.ok remoteAt100, .ok remoteAt100, .ok (), .noButton, 50⟩, sampleNew)]

/-- An unnormalized snapshot: sentinel strings and a seconds-bearing time. -/
def messyTable : Table := ⟨SCHEMA, [⟨"nan", "1A", "2026-10-03", "09:00:00", "None", some 3⟩]⟩

/-- The normalization of `messyTable`. -/
def cleanedMessy : Table := ⟨SCHEMA, [⟨"", "1A", "2026-10-03", "09:00", "", some 3⟩]⟩

/-- A booking whose combined Date+Time does not parse (garbage time). -/
def excelBugRow : Row := ⟨"Biology", "", "2026-10-15", "zz", "", none⟩

/-- A snapshot holding one parseable October booking and one booking whose
combined Date+Time fails to parse but whose Date names an October day. -/
def excelBugTable : Table :=
  ⟨SCHEMA, [⟨"Chemistry", "", "2026-10-03", "09:00", "", none⟩, excelBugRow]⟩

end Sched

namespace Sched

theorem save_proceed_flag (inp : SaveInput) (s : SessionState) (new_df : Table) (flag : Bool) :
    (save_proceed inp s new_df flag).conflictFlagged = flag := by
  unfold save_proceed
  split <;> simp only
  split <;> simp only

theorem save_proceed_outcome (inp : SaveInput) (s : SessionState) (new_df : Table) (flag : Bool) :
    (save_proceed inp s new_df flag).outcome = .cleanFailed ∨
    (save_proceed inp s new_df flag).outcome = .writeFailed ∨
    (save_proceed inp s new_df flag).outcome = .saved := by
  unfold save_proceed
  split
  · exact Or.inl rfl
  · split
    · exact Or.inr (Or.inl rfl)
    · exact Or.inr (Or.inr rfl)

theorem save_proceed_written_ok (inp : SaveInput) (s : SessionState) (new_df : Table)
    (flag : Bool) (t : Table) (hw : inp.write = .ok ()) (hc : clean_dataframe new_df = .ok t) :
    (save_proceed inp s new_df flag).written = some ⟨t.cols, stampRows t.rows inp.now⟩ := by
  unfold save_proceed
  rw [hc, hw]

theorem save_proceed_session_of_ne_saved (inp : SaveInput) (s : SessionState) (new_df : Table)
    (flag : Bool) (h : (save_proceed inp s new_df flag).outcome ≠ .saved) :
    (save_proceed inp s new_df flag).session = s := by
  unfold save_proceed at *
  split at h
  · rfl
  · split at h
    · rfl
    · exact absurd rfl h

theorem save_proceed_saved (inp : SaveInput) (s : SessionState) (new_df : Table) (flag : Bool)
    (h : (save_proceed inp s new_df flag).outcome = .saved) :
    ∃ w : Table, (save_proceed inp s new_df flag).written = some w ∧
      (save_proceed inp s new_df flag).session = ⟨w, some inp.now⟩ ∧
      (∀ r ∈ w.rows, r.LastUpdated = some inp.now) ∧
      inp.write = .ok () := by
  rcases hcd : clean_dataframe new_df with e | cleaned
  · unfold save_proceed at h
    rw [hcd] at h
    simp at h
  · rcases hw : inp.write with e' | u
    · unfold save_proceed at h
      rw [hcd, hw] at h
      simp at h
    · cases u
      refine ⟨⟨cleaned.cols, stampRows cleaned.rows inp.now⟩, ?_, ?_, ?_, rfl⟩
      · unfold save_proceed
        rw [hcd, hw]
      · unfold save_proceed
        rw [hcd, hw]
      · intro r hr
        simp only [stampRows, List.mem_map] at hr
        obtain ⟨r0, _, rfl⟩ := hr
        rfl

theorem save_proceed_message_writeFailed (inp : SaveInput) (s : SessionState) (new_df : Table)
    (flag : Bool) (h : (save_proceed inp s new_df flag).outcome = .writeFailed) :
    ∃ e, inp.write = .error e ∧
      (save_proceed inp s new_df flag).message =
        some (if strHas429 e then .rateLimitSave else .saveError e) := by
  rcases hcd : clean_dataframe new_df with e | cleaned
  · unfold save_proceed at h
    rw [hcd] at h
    simp at h
  · rcases hw : inp.write with e' | u
    · refine ⟨e', rfl, ?_⟩
      unfold save_proceed
      rw [hcd, hw]
    · unfold save_proceed at h
      rw [hcd, hw] at h
      simp at h

end Sched

namespace Sched

theorem save_eq (inp : SaveInput) (s : SessionState) (new_df : Table) :
    save_with_conflict_detection inp s new_df =
      if (match s.last_cloud_timestamp,
            maxLastUpdated (load_data_from_google inp.fetch).1 with
          | some u, some c => decide (u < c)
          | _, _ => false) then
        match inp.res with
        | .reloadClicked =>
          ⟨refresh_data inp.refetch s, none, .reloadedConflict, true, some .conflictNotice⟩
        | .forceClicked => save_proceed inp s new_df true
        | .noButton => ⟨s, none, .haltedConflict, true, some .conflictNotice⟩
      else save_proceed inp s new_df false := rfl

theorem save_flag_eq (inp : SaveInput) (s : SessionState) (new_df : Table) :
    (save_with_conflict_detection inp s new_df).conflictFlagged =
      (match s.last_cloud_timestamp,
          maxLastUpdated (load_data_from_google inp.fetch).1 with
        | some u, some c => decide (u < c)
        | _, _ => false) := by
  rw [save_eq]
  split
  · next h =>
      rw [h]
      rcases inp.res <;> simp [save_proceed_flag]
  · next h =>
      rw [Bool.not_eq_true] at h
      rw [h]
      exact save_proceed_flag inp s new_df false

theorem save_proceed_cases (inp : SaveInput) (s : SessionState) (new_df : Table) :
    (save_with_conflict_detection inp s new_df).conflictFlagged = true ∧
      (save_with_conflict_detection inp s new_df = save_proceed inp s new_df true ∧
        inp.res = .forceClicked ∨
      ((save_with_conflict_detection inp s new_df).session = s ∧
        (save_with_conflict_detection inp s new_df).written = none ∧
        (save_with_conflict_detection inp s new_df).outcome = .haltedConflict ∧
        inp.res = .noButton) ∨
      ((save_with_conflict_detection inp s new_df).session = refresh_data inp.refetch s ∧
        (save_with_conflict_detection inp s new_df).written = none ∧
        (save_with_conflict_detection inp s new_df).outcome = .reloadedConflict ∧
        inp.res = .reloadClicked)) ∨
    (save_with_conflict_detection inp s new_df).conflictFlagged = false ∧
      save_with_conflict_detection inp s new_df = save_proceed inp s new_df false := by
  by_cases h : (match s.last_cloud_timestamp,
      maxLastUpdated (load_data_from_google inp.fetch).1 with
    | some u, some c => decide (u < c)
    | _, _ => false) = true
  · left
    refine ⟨by rw [save_flag_eq, h], ?_⟩
    rw [save_eq, if_pos h]
    rcases hr : inp.res
    · right; right; exact ⟨rfl, rfl, rfl, rfl⟩
    · left; exact ⟨rfl, rfl⟩
    · right; left; exact ⟨rfl, rfl, rfl, rfl⟩
  · right
    rw [Bool.not_eq_true] at h
    refine ⟨by rw [save_flag_eq, h], ?_⟩
    rw [save_eq, h]
    simp

end Sched

namespace Sched

theorem save_conflict_char (inp : SaveInput) (s : SessionState) (new_df : Table) :
    (save_with_conflict_detection inp s new_df).conflictFlagged = true ↔
      ∃ c u, maxLastUpdated (load_data_from_google inp.fetch).1 = some c ∧
        s.last_cloud_timestamp = some u ∧ u < c := by
  rw [save_flag_eq]
  rcases hu : s.last_cloud_timestamp with _ | u <;>
    rcases hc : maxLastUpdated (load_data_from_google inp.fetch).1 with _ | c <;> simp

theorem save_saved_spec (inp : SaveInput) (s : SessionState) (new_df : Table)
    (h : (save_with_conflict_detection inp s new_df).outcome = .saved) :
    ∃ w : Table, (save_with_conflict_detection inp s new_df).written = some w ∧
      (save_with_conflict_detection inp s new_df).session = ⟨w, some inp.now⟩ ∧
      (∀ r ∈ w.rows, r.LastUpdated = some inp.now) ∧ inp.write = .ok () := by
  rcases save_proceed_cases inp s new_df with ⟨_, hf | hh | hr⟩ | ⟨_, he⟩
  · rw [hf.1] at h ⊢
    exact save_proceed_saved _ _ _ _ h
  · rw [hh.2.2.1] at h
    simp at h
  · rw [hr.2.2.1] at h
    simp at h
  · rw [he] at h ⊢
    exact save_proceed_saved _ _ _ _ h

theorem save_session_unchanged (inp : SaveInput) (s : SessionState) (new_df : Table)
    (h : (save_with_conflict_detection inp s new_df).outcome = .writeFailed ∨
         (save_with_conflict_detection inp s new_df).outcome = .cleanFailed ∨
         (save_with_conflict_detection inp s new_df).outcome = .haltedConflict) :
    (save_with_conflict_detection inp s new_df).session = s := by
  rcases save_proceed_cases inp s new_df with ⟨_, hf | hh | hr⟩ | ⟨_, he⟩
  · rw [hf.1] at h ⊢
    apply save_proceed_session_of_ne_saved
    rcases h with h | h | h <;> simp [h]
  · exact hh.1
  · rcases h with h | h | h <;> rw [hr.2.2.1] at h <;> simp at h
  · rw [he] at h ⊢
    apply save_proceed_session_of_ne_saved
    rcases h with h | h | h <;> simp [h]

theorem save_writeFailed_spec (inp : SaveInput) (s : SessionState) (new_df : Table)
    (h : (save_with_conflict_detection inp s new_df).outcome = .writeFailed) :
    ∃ e, inp.write = .error e ∧
      (save_with_conflict_detection inp s new_df).message =
        some (if strHas429 e then Msg.rateLimitSave else Msg.saveError e) := by
  rcases save_proceed_cases inp s new_df with ⟨_, hf | hh | hr⟩ | ⟨_, he⟩
  · rw [hf.1] at h ⊢
    exact save_proceed_message_writeFailed _ _ _ _ h
  · rw [hh.2.2.1] at h
    simp at h
  · rw [hr.2.2.1] at h
    simp at h
  · rw [he] at h ⊢
    exact save_proceed_message_writeFailed _ _ _ _ h

/-- Claim C1: the save protocol flags a conflict iff both the freshly fetched
remote maximum `LastUpdated` and the session watermark are present and the
remote maximum is strictly greater; otherwise (remote max ≤ watermark, or
either absent) it proceeds to the write step without prompting. -/
theorem c1_conflict_iff_spec (inp : SaveInput) (s : SessionState) (new_df : Table) :
    ((save_with_conflict_detection inp s new_df).conflictFlagged = true ↔
      ∃ c u, maxLastUpdated (load_data_from_google inp.fetch).1 = some c ∧
        s.last_cloud_timestamp = some u ∧ u < c) ∧
    ((save_with_conflict_detection inp s new_df).conflictFlagged = false →
      (save_with_conflict_detection inp s new_df).outcome ≠ .haltedConflict ∧
      (save_with_conflict_detection inp s new_df).outcome ≠ .reloadedConflict ∧
      ∀ t, clean_dataframe new_df = .ok t → inp.write = .ok () →
        (save_with_conflict_detection inp s new_df).written =
          some ⟨t.cols, stampRows t.rows inp.now⟩) := by
  refine ⟨save_conflict_char inp s new_df, fun hf => ?_⟩
  rcases save_proceed_cases inp s new_df with ⟨ht, _⟩ | ⟨_, he⟩
  · rw [ht] at hf
    simp at hf
  · rw [he]
    refine ⟨?_, ?_, fun t hc hw => save_proceed_written_ok inp s new_df false t hw hc⟩
    · rcases save_proceed_outcome inp s new_df false with h | h | h <;> simp [h]
    · rcases save_proceed_outcome inp s new_df false with h | h | h <;> simp [h]

/-- Witness for C1 at concrete inputs: watermark 5 vs cloud max 10 flags, and
watermark 10 vs cloud max 10 writes. -/
theorem c1_witness :
    (save_with_conflict_detection inpConflict sessionBehind sampleNew).conflictFlagged = true ∧
    (save_with_conflict_detection inpForce sessionCurrent sampleNew).written ≠ none := by
  constructor
  · exact (c1_conflict_iff_spec inpConflict sessionBehind sampleNew).1.mpr
      ⟨10, 5, by decide, rfl, by decide⟩
  · have h := ((c1_conflict_iff_spec inpForce sessionCurrent sampleNew).2 (by decide)).2.2
      sampleNew rfl rfl
    rw [h]
    simp

/-- Claim C2: on a flagged conflict the protocol writes only under the
explicit Force resolution, and with no button pressed it halts with session
state and remote store untouched. -/
theorem c2_conflict_resolution_gate (inp : SaveInput) (s : SessionState) (new_df : Table)
    (hc : (save_with_conflict_detection inp s new_df).conflictFlagged = true) :
    ((save_with_conflict_detection inp s new_df).written ≠ none →
      inp.res = .forceClicked) ∧
    (inp.res = .noButton →
      (save_with_conflict_detection inp s new_df).session = s ∧
      (save_with_conflict_detection inp s new_df).written = none ∧
      (save_with_conflict_detection inp s new_df).outcome = .haltedConflict) := by
  rcases save_proceed_cases inp s new_df with ⟨_, hf | hh | hr⟩ | ⟨hfl, _⟩
  · refine ⟨fun _ => hf.2, fun hn => ?_⟩
    rw [hf.2] at hn
    simp at hn
  · exact ⟨fun hw => absurd hh.2.1 hw, fun _ => ⟨hh.1, hh.2.1, hh.2.2.1⟩⟩
  · refine ⟨fun hw => absurd hr.2.1 hw, fun hn => ?_⟩
    rw [hr.2.2.2] at hn
    simp at hn
  · rw [hfl] at hc
    simp at hc

/-- Witness for C2: the conflicting save with no button halts unchanged. -/
theorem c2_witness :
    (save_with_conflict_detection inpConflict sessionBehind sampleNew).session = sessionBehind ∧
    (save_with_conflict_detection inpConflict sessionBehind sampleNew).written = none := by
  have h := (c2_conflict_resolution_gate inpConflict sessionBehind sampleNew (by decide)).2 rfl
  exact ⟨h.1, h.2.1⟩

/-- Claim C3: a successful save writes a snapshot whose every row carries the
single fresh timestamp of that save, and afterwards the session snapshot is
the written snapshot and the watermark is that same timestamp. -/
theorem c3_saved_stamp_uniform (inp : SaveInput) (s : SessionState) (new_df : Table)
    (h : (save_with_conflict_detection inp s new_df).outcome = .saved) :
    ∃ w : Table, (save_with_conflict_detection inp s new_df).written = some w ∧
      (∀ r ∈ w.rows, r.LastUpdated = some inp.now) ∧
      (save_with_conflict_detection inp s new_df).session.data = w ∧
      (save_with_conflict_detection inp s new_df).session.last_cloud_timestamp =
        some inp.now := by
  obtain ⟨w, hw, hs, hst, _⟩ := save_saved_spec inp s new_df h
  exact ⟨w, hw, hst, by rw [hs], by rw [hs]⟩

/-- Witness for C3 at a concrete successful save with timestamp 42. -/
theorem c3_witness :
    ∃ w : Table,
      (save_with_conflict_detection inpForce sessionCurrent sampleNew).written = some w ∧
      (∀ r ∈ w.rows, r.LastUpdated = some 42) ∧
      (save_with_conflict_detection inpForce sessionCurrent sampleNew).session.data = w ∧
      (save_with_conflict_detection inpForce sessionCurrent sampleNew).session.last_cloud_timestamp =
        some 42 :=
  c3_saved_stamp_uniform inpForce sessionCurrent sampleNew (by decide)

/-- Claim C4 (amended): every exception during the save is caught and
classified by the `"429" in str(e)` test; the session is mutated only after
the remote write returns successfully — on a write (or normalization)
failure, and on a conflict halt, it is unchanged.  (A fetch failure alone
degrades to an empty remote view; a following successful write does update
the session.) -/
theorem c4_exception_containment (inp : SaveInput) (s : SessionState) (new_df : Table) :
    ((save_with_conflict_detection inp s new_df).outcome = .writeFailed ∨
     (save_with_conflict_detection inp s new_df).outcome = .cleanFailed ∨
     (save_with_conflict_detection inp s new_df).outcome = .haltedConflict →
      (save_with_conflict_detection inp s new_df).session = s) ∧
    ((save_with_conflict_detection inp s new_df).outcome = .saved → inp.write = .ok ()) ∧
    ((save_with_conflict_detection inp s new_df).outcome = .writeFailed →
      ∃ e, inp.write = .error e ∧
        (save_with_conflict_detection inp s new_df).message =
          some (if strHas429 e then Msg.rateLimitSave else Msg.saveError e)) ∧
    (∀ e, inp.fetch = .error e →
      (load_data_from_google inp.fetch).2 =
        some (if strHas429 e then Msg.rateLimitLoad else Msg.dbError e)) := by
  refine ⟨save_session_unchanged inp s new_df, ?_, save_writeFailed_spec inp s new_df, ?_⟩
  · intro h
    obtain ⟨_, _, _, _, hw⟩ := save_saved_spec inp s new_df h
    exact hw
  · intro e he
    rw [he]
    rfl

/-- Witness for C4: a rate-limited write leaves the session untouched and
produces the wait message. -/
theorem c4_witness :
    (save_with_conflict_detection inpWriteFail sessionCurrent sampleNew).session =
      sessionCurrent ∧
    (∃ e, inpWriteFail.write = Except.error e ∧
      (save_with_conflict_detection inpWriteFail sessionCurrent sampleNew).message =
        some (if strHas429 e then Msg.rateLimitSave else Msg.saveError e)) := by
  have h := c4_exception_containment inpWriteFail sessionCurrent sampleNew
  exact ⟨h.1 (Or.inl (by decide)), h.2.2.1 (by decide)⟩

/-- Counterexample to C4 as stated: a save whose fetch raises is caught, but
the save then proceeds against the degraded empty remote view, the write
succeeds, and the session state is mutated — not "left exactly as it was". -/
theorem c4_fetch_failure_mutates :
    inpFetchFail.fetch = Except.error "boom" ∧
    (save_with_conflict_detection inpFetchFail sessionCurrent sampleNew).session ≠
      sessionCurrent := ⟨rfl, by decide⟩

end Sched

namespace Sched

/-- Claim C5: `load()` never raises: a raising fetch is classified by the
`"429"` test and degrades to the empty six-column table; an empty remote
table yields the empty six-column table silently; a raising normalization of
a non-empty fetch also degrades; and the rate-limit message differs from
every other failure's message. -/
theorem c5_load_degrades (fetch : Except String Table) :
    (∀ e, fetch = .error e →
      load_data_from_google fetch =
        (emptyTable, some (if strHas429 e then Msg.rateLimitLoad else Msg.dbError e))) ∧
    (∀ df, fetch = .ok df → df.rows = [] →
      load_data_from_google fetch = (emptyTable, none)) ∧
    (∀ df e, fetch = .ok df → df.rows ≠ [] → clean_dataframe df = .error e →
      load_data_from_google fetch =
        (emptyTable, some (if strHas429 e then Msg.rateLimitLoad else Msg.dbError e))) ∧
    emptyTable.cols = ["Name", "ID", "Date", "Time", "Notes", "LastUpdated"] ∧
    (∀ e e', strHas429 e = true → strHas429 e' = false →
      (if strHas429 e then Msg.rateLimitLoad else Msg.dbError e) ≠
        (if strHas429 e' then Msg.rateLimitLoad else Msg.dbError e')) := by
  refine ⟨?_, ?_, ?_, rfl, ?_⟩
  · intro e he
    rw [he]
    rfl
  · intro df he hrows
    rw [he]
    simp only [load_data_from_google]
    rw [hrows]
    rfl
  · intro df e he hrows hc
    rw [he]
    simp only [load_data_from_google]
    rcases hr : df.rows with _ | ⟨a, as⟩
    · exact absurd hr hrows
    · rw [hc]
      rfl
  · intro e e' h h'
    rw [if_pos h, if_neg (by simp [h'])]
    simp

/-- Witness for C5 at three concrete fetch outcomes. -/
theorem c5_witness :
    load_data_from_google (.error "HTTP 429") = (emptyTable, some Msg.rateLimitLoad) ∧
    load_data_from_google (.ok emptyTable) = (emptyTable, none) ∧
    load_data_from_google (.ok badTable) =
      (emptyTable, some (Msg.dbError "KeyError: Date")) := by
  refine ⟨?_, ?_, ?_⟩
  · rw [(c5_load_degrades (.error "HTTP 429")).1 "HTTP 429" rfl,
      if_pos (show strHas429 "HTTP 429" = true by decide)]
  · exact (c5_load_degrades (.ok emptyTable)).2.1 emptyTable rfl rfl
  · rw [(c5_load_degrades (.ok badTable)).2.2.1 badTable "KeyError: Date" rfl
      (by decide) rfl, if_neg (by decide)]

/-- Claim C7: with a configured limit `L > 0` and at least `L` rows already in
the snapshot at `(check_date, t_str)`, the add-booking submit is rejected
with a validation message: no row is appended and no save is requested. -/
theorem c7_slot_capacity (limit : Nat) (df : Table)
    (name c_id check_date t_str notes : String)
    (hpos : 0 < limit)
    (hfull : limit ≤
      (df.rows.filter fun r => r.Date == check_date && r.Time == t_str).length) :
    form_submit_add limit df name c_id check_date t_str notes = .nameRequired ∨
    form_submit_add limit df name c_id check_date t_str notes =
      .slotFull
        (df.rows.filter fun r => r.Date == check_date && r.Time == t_str).length
        limit := by
  unfold form_submit_add
  by_cases hn : name = ""
  · rw [if_pos hn]
    exact Or.inl rfl
  · rw [if_neg hn]
    rw [if_pos ⟨hpos, hfull⟩]
    exact Or.inr rfl

/-- Witness for C7: limit 1, one booking already at the slot. -/
theorem c7_witness :
    form_submit_add 1 sampleCloud "Math" "1B" "2026-10-03" "09:00" "" = .slotFull 1 1 := by
  rcases c7_slot_capacity 1 sampleCloud "Math" "1B" "2026-10-03" "09:00" ""
      (by decide) (by decide) with h | h
  · exact absurd h (by decide)
  · exact h

/-- Claim C10: the export renderers are not pure in their dataframe argument:
both add a `dt` column (not part of the declared schema) to the caller's
frame, so an export on a schema-shaped frame changes it. -/
theorem c10_export_mutates (t : Table) :
    "dt" ∈ (generate_visual_pdf t).1.cols ∧
    "dt" ∈ (generate_visual_excel t).1.cols ∧
    "dt" ∉ SCHEMA ∧
    (generate_visual_pdf t).1.rows = t.rows ∧
    (generate_visual_excel t).1.rows = t.rows ∧
    (t.cols = SCHEMA →
      (generate_visual_pdf t).1 ≠ t ∧ (generate_visual_excel t).1 ≠ t) := by
  have hmem : "dt" ∈ (add_dt_column t).cols := by
    unfold add_dt_column
    by_cases h : t.cols.contains "dt"
    · rw [if_pos h]
      simpa using h
    · rw [if_neg h]
      simp
  have hrows : (add_dt_column t).rows = t.rows := rfl
  refine ⟨hmem, hmem, by decide, hrows, hrows, fun hs => ?_⟩
  have hne : add_dt_column t ≠ t := by
    intro heq
    have := congrArg Table.cols heq
    rw [hs] at this
    unfold add_dt_column at this
    rw [hs] at this
    rw [if_neg (by decide)] at this
    simp at this
  exact ⟨hne, hne⟩

/-- Witness for C10: exporting the schema-shaped empty table changes it. -/
theorem c10_witness :
    "dt" ∈ (generate_visual_pdf emptyTable).1.cols ∧
    (generate_visual_pdf emptyTable).1 ≠ emptyTable ∧
    (generate_visual_excel emptyTable).1 ≠ emptyTable := by
  have h := c10_export_mutates emptyTable
  exact ⟨h.1, (h.2.2.2.2.2 rfl).1, (h.2.2.2.2.2 rfl).2⟩

end Sched

namespace Sched

theorem save_proceed_written_stamped (inp : SaveInput) (s : SessionState) (new_df : Table)
    (flag : Bool) (w : Table) (h : (save_proceed inp s new_df flag).written = some w) :
    ∀ r ∈ w.rows, r.LastUpdated = some inp.now := by
  rcases hcd : clean_dataframe new_df with e | cleaned
  · unfold save_proceed at h
    rw [hcd] at h
    simp at h
  · rcases hw : inp.write with e' | u
    · unfold save_proceed at h
      rw [hcd, hw] at h
      simp at h
    · unfold save_proceed at h
      rw [hcd, hw] at h
      simp only [Option.some.injEq] at h
      subst h
      intro r hr
      simp only [stampRows, List.mem_map] at hr
      obtain ⟨r0, _, rfl⟩ := hr
      rfl

theorem save_written_stamped (inp : SaveInput) (s : SessionState) (new_df : Table)
    (w : Table) (h : (save_with_conflict_detection inp s new_df).written = some w) :
    ∀ r ∈ w.rows, r.LastUpdated = some inp.now := by
  rcases save_proceed_cases inp s new_df with ⟨_, hf | hh | hrl⟩ | ⟨_, he⟩
  · rw [hf.1] at h
    exact save_proceed_written_stamped _ _ _ _ _ h
  · rw [hh.2.1] at h
    simp at h
  · rw [hrl.2.1] at h
    simp at h
  · rw [he] at h
    exact save_proceed_written_stamped _ _ _ _ _ h

theorem stampsOf_sublist (steps : List (SaveInput × Table)) :
    ∀ s : SessionState, List.Sublist (stampsOf (runSaves s steps)) (steps.map fun p => p.1.now) := by
  induction steps with
  | nil =>
    intro s
    simp [runSaves, stampsOf]
  | cons step rest ih =>
    intro s
    simp only [runSaves, List.map_cons]
    by_cases h : (save_with_conflict_detection step.1 s step.2).outcome = .saved
    · have hw : (save_with_conflict_detection step.1 s step.2).session.last_cloud_timestamp =
          some step.1.now := by
        obtain ⟨w, _, hs, _, _⟩ := save_saved_spec step.1 s step.2 h
        rw [hs]
      have hf : stampsOf (save_with_conflict_detection step.1 s step.2 ::
            runSaves (save_with_conflict_detection step.1 s step.2).session rest) =
          step.1.now :: stampsOf
            (runSaves (save_with_conflict_detection step.1 s step.2).session rest) := by
        unfold stampsOf
        rw [List.filterMap_cons_some]
        rw [if_pos h, hw]
      rw [hf]
      exact List.Sublist.cons₂ _ (ih _)
    · have hf : stampsOf (save_with_conflict_detection step.1 s step.2 ::
            runSaves (save_with_conflict_detection step.1 s step.2).session rest) =
          stampsOf
            (runSaves (save_with_conflict_detection step.1 s step.2).session rest) := by
        unfold stampsOf
        rw [List.filterMap_cons_none]
        rw [if_neg h]
      rw [hf]
      exact List.Sublist.cons _ (ih _)

/-- Claim C9 (amended): the `LastUpdated` of every written row is the save
protocol's own clock reading (never taken from the candidate rows), and the
stamps of the successful saves of a run are nondecreasing PROVIDED the clock
readings across the run are nondecreasing; the code itself enforces no clock
monotonicity. -/
theorem c9_stamp_protocol_monotone :
    (∀ (inp : SaveInput) (s : SessionState) (new_df : Table) (w : Table),
      (save_with_conflict_detection inp s new_df).written = some w →
      ∀ r ∈ w.rows, r.LastUpdated = some inp.now) ∧
    (∀ (s : SessionState) (steps : List (SaveInput × Table)),
      List.Chain' (· ≤ ·) (steps.map fun p => p.1.now) →
      List.Chain' (· ≤ ·) (stampsOf (runSaves s steps))) := by
  refine ⟨save_written_stamped, fun s steps h => ?_⟩
  rw [List.chain'_iff_pairwise] at h ⊢
  exact h.sublist (stampsOf_sublist steps s)

/-- Witness for C9: a run of the two sample saves with nondecreasing clocks
has nondecreasing stamps, and the stamps are the clock readings. -/
theorem c9_witness :
    List.Chain' (· ≤ ·)
      (stampsOf (runSaves sessionFresh
        [(⟨Except.ok emptyTable, Except.ok emptyTable, Except.ok (), .noButton, 7⟩,
            sampleNew)])) ∧
    (∀ r ∈ (⟨SCHEMA, stampRows sampleNew.rows 7⟩ : Table).rows,
      r.LastUpdated = some 7) := by
  constructor
  · exact c9_stamp_protocol_monotone.2 sessionFresh _ (by simp)
  · exact c9_stamp_protocol_monotone.1
      ⟨Except.ok emptyTable, Except.ok emptyTable, Except.ok (), .noButton, 7⟩
      sessionFresh sampleNew _ (by decide)

/-- Counterexample to C9 as stated: two successful saves whose clocks run
backwards assign stamps 100 then 50 — the assigned values are not
monotonically non-decreasing; the protocol never compares its fresh stamp
against the cloud. -/
theorem c9_clock_skew_counterexample :
    ((runSaves sessionFresh runDecreasing).map (·.outcome)) =
      [Outcome.saved, Outcome.saved] ∧
    stampsOf (runSaves sessionFresh runDecreasing) = [100, 50] ∧
    ¬ List.Chain' (· ≤ ·) (stampsOf (runSaves sessionFresh runDecreasing)) := by
  refine ⟨by decide, by decide, fun hch => ?_⟩
  rw [show stampsOf (runSaves sessionFresh runDecreasing) = [100, 50] from by decide] at hch
  rw [List.chain'_cons] at hch
  exact absurd hch.1 (by omega)
end Sched

namespace Sched

theorem dVal?_eq_some {c : Char} {v : Nat} (h : dVal? c = some v) : v < 10 ∧ dChar v = c := by
  unfold dVal? at h
  split_ifs at h with h0 h1 h2 h3 h4 h5 h6 h7 h8 h9 <;>
    simp only [Option.some.injEq] at h
  · subst h; subst h0; exact ⟨by omega, rfl⟩
  · subst h; subst h1; exact ⟨by omega, rfl⟩
  · subst h; subst h2; exact ⟨by omega, rfl⟩
  · subst h; subst h3; exact ⟨by omega, rfl⟩
  · subst h; subst h4; exact ⟨by omega, rfl⟩
  · subst h; subst h5; exact ⟨by omega, rfl⟩
  · subst h; subst h6; exact ⟨by omega, rfl⟩
  · subst h; subst h7; exact ⟨by omega, rfl⟩
  · subst h; subst h8; exact ⟨by omega, rfl⟩
  · subst h; subst h9; exact ⟨by omega, rfl⟩

theorem dChar_dVal? {v : Nat} (h : v < 10) : dVal? (dChar v) = some v := by
  interval_cases v <;> rfl

theorem string_eq_of_toList {s : String} {l : List Char} (h : s.toList = l) : s = ⟨l⟩ := by
  cases s
  exact congrArg String.mk h

theorem pHML_print {l : List Char} {t : HM} (h : pHML l = some t) :
    l = fmtTimeL t ∧ t.h < 24 ∧ t.mi < 60 := by
  unfold pHML at h
  split at h
  · simp only [Option.bind_eq_some] at h
    obtain ⟨a, ha, b, hb, d, hd, e, he, h⟩ := h
    split_ifs at h with hc
    simp only [Option.some.injEq] at h
    obtain ⟨hca, hcb, hcc⟩ := hc
    rename_i h1 h2 c m1 m2
    obtain ⟨ha1, ha2⟩ := dVal?_eq_some ha
    obtain ⟨hb1, hb2⟩ := dVal?_eq_some hb
    obtain ⟨hd1, hd2⟩ := dVal?_eq_some hd
    obtain ⟨he1, he2⟩ := dVal?_eq_some he
    subst h
    refine ⟨?_, by simpa using hcb, by simpa using hcc⟩
    simp only [fmtTimeL, List.cons.injEq, and_true]
    refine ⟨?_, ?_, by rw [hca], ?_, ?_⟩
    · rw [show (10 * a + b) / 10 = a by omega, ha2]
    · rw [show (10 * a + b) % 10 = b by omega, hb2]
    · rw [show (10 * d + e) / 10 = d by omega, hd2]
    · rw [show (10 * d + e) % 10 = e by omega, he2]
  · simp at h

theorem pHMS00L_bounds {l : List Char} {t : HM} (h : pHMS00L l = some t) :
    t.h < 24 ∧ t.mi < 60 := by
  unfold pHMS00L at h
  split at h
  · simp only [Option.bind_eq_some] at h
    obtain ⟨a, ha, b, hb, d, hd, e, he, h⟩ := h
    split_ifs at h with hc
    simp only [Option.some.injEq] at h
    subst h
    exact ⟨by simpa using hc.2.2.2.2.1, by simpa using hc.2.2.2.2.2⟩
  · simp at h

theorem pHML_parse (t : HM) (hh : t.h < 24) (hm : t.mi < 60) :
    pHML (fmtTimeL t) = some t := by
  obtain ⟨th, tmi⟩ := t
  simp only at hh hm
  have ha : dVal? (dChar (th / 10)) = some (th / 10) := dChar_dVal? (by omega)
  have hb : dVal? (dChar (th % 10)) = some (th % 10) := dChar_dVal? (by omega)
  have hd : dVal? (dChar (tmi / 10)) = some (tmi / 10) := dChar_dVal? (by omega)
  have he : dVal? (dChar (tmi % 10)) = some (tmi % 10) := dChar_dVal? (by omega)
  simp only [fmtTimeL, pHML]
  rw [ha, Option.some_bind, hb, Option.some_bind, hd, Option.some_bind, he,
    Option.some_bind]
  rw [if_pos ⟨trivial, by omega, by omega⟩]
  simp only [Option.some.injEq, HM.mk.injEq]
  omega

theorem pHMS00L_fmtTimeL (t : HM) : pHMS00L (fmtTimeL t) = none := rfl

theorem pDateL_print {l : List Char} {x : YMD} (h : pDateL l = some x) :
    l = fmtDateL x ∧ 1678 ≤ x.y ∧ x.y ≤ 2261 ∧ 1 ≤ x.m ∧ x.m ≤ 12 ∧ 1 ≤ x.d ∧
      x.d ≤ daysInMonth x.y x.m := by
  unfold pDateL at h
  split at h
  · simp only [Option.bind_eq_some] at h
    obtain ⟨a, ha, b, hb, c, hcv, d, hdv, e, hev, f, hfv, g, hgv, k, hkv, h⟩ := h
    split_ifs at h with hcnd
    simp only [Option.some.injEq] at h
    obtain ⟨hs1, hs2, hy1, hy2, hm1, hm2, hd1, hd2⟩ := hcnd
    rename_i y1 y2 y3 y4 s1 m1 m2 s2 d1 d2
    obtain ⟨ha1, ha2⟩ := dVal?_eq_some ha
    obtain ⟨hb1, hb2⟩ := dVal?_eq_some hb
    obtain ⟨hc1, hc2⟩ := dVal?_eq_some hcv
    obtain ⟨hdd1, hdd2⟩ := dVal?_eq_some hdv
    obtain ⟨he1, he2⟩ := dVal?_eq_some hev
    obtain ⟨hf1, hf2⟩ := dVal?_eq_some hfv
    obtain ⟨hg1, hg2⟩ := dVal?_eq_some hgv
    obtain ⟨hk1, hk2⟩ := dVal?_eq_some hkv
    subst h
    refine ⟨?_, hy1, hy2, hm1, hm2, hd1, hd2⟩
    simp only [fmtDateL, List.cons.injEq, and_true]
    refine ⟨?_, ?_, ?_, ?_, by rw [hs1], ?_, ?_, by rw [hs2], ?_, ?_⟩
    · rw [show (1000 * a + 100 * b + 10 * c + d) / 1000 = a by omega, ha2]
    · rw [show (1000 * a + 100 * b + 10 * c + d) / 100 % 10 = b by omega, hb2]
    · rw [show (1000 * a + 100 * b + 10 * c + d) / 10 % 10 = c by omega, hc2]
    · rw [show (1000 * a + 100 * b + 10 * c + d) % 10 = d by omega, hdd2]
    · rw [show (10 * e + f) / 10 = e by omega, he2]
    · rw [show (10 * e + f) % 10 = f by omega, hf2]
    · rw [show (10 * g + k) / 10 = g by omega, hg2]
    · rw [show (10 * g + k) % 10 = k by omega, hk2]
  · simp at h

theorem parseDate_print {s : String} {x : YMD} (h : parseDate s = some x) :
    s = fmtDate x :=
  string_eq_of_toList (pDateL_print h).1

theorem parseTimeHM_print {s : String} {t : HM} (h : parseTimeHM s = some t) :
    s = fmtTime t ∧ t.h < 24 ∧ t.mi < 60 := by
  obtain ⟨hl, h1, h2⟩ := pHML_print h
  exact ⟨string_eq_of_toList hl, h1, h2⟩

theorem cleanText_idem (s : String) : cleanText (cleanText s) = cleanText s := by
  have h : cleanText s = "" ∨ cleanText s = s := by
    unfold cleanText
    split_ifs <;> simp
  rcases h with h | h <;> rw [h]
  · decide
  · exact h

theorem fmtDate_len (x : YMD) : (fmtDate x).length = 10 := rfl

theorem fmtTime_len (t : HM) : (fmtTime t).length = 5 := rfl

theorem cleanText_fmtDate (x : YMD) : cleanText (fmtDate x) = fmtDate x := by
  unfold cleanText
  rw [if_neg]
  intro hb
  simp only [Bool.or_eq_true, beq_iff_eq] at hb
  rcases hb with ((hb | hb) | hb) | hb <;>
    exact absurd (congrArg String.length hb) (by rw [fmtDate_len]; decide)

theorem cleanText_fmtTime (t : HM) : cleanText (fmtTime t) = fmtTime t := by
  unfold cleanText
  rw [if_neg]
  intro hb
  simp only [Bool.or_eq_true, beq_iff_eq] at hb
  rcases hb with ((hb | hb) | hb) | hb <;>
    exact absurd (congrArg String.length hb) (by rw [fmtTime_len]; decide)

theorem cleanDate_stable (s : String) :
    cleanDate (cleanText (cleanDate s)) = cleanDate s := by
  rcases hp : parseDate s with _ | x
  · have h0 : cleanDate s = "" := by
      unfold cleanDate
      rw [hp]
    rw [h0]
    decide
  · have h0 : cleanDate s = fmtDate x := by
      unfold cleanDate
      rw [hp]
    have hs : s = fmtDate x := parseDate_print hp
    rw [h0, cleanText_fmtDate]
    unfold cleanDate
    rw [← hs, hp]
    exact hs.symm

theorem cleanTime_stable (s : String) :
    cleanTime (cleanText (cleanTime s)) = cleanTime s := by
  rcases hp : parseTimeHMS00 s with _ | t
  · rcases hq : parseTimeHM s with _ | t
    · have h0 : cleanTime s = "" := by
        unfold cleanTime
        rw [hp, hq]
      rw [h0]
      decide
    · have h0 : cleanTime s = fmtTime t := by
        unfold cleanTime
        rw [hp, hq]
      obtain ⟨hs, h1, h2⟩ := parseTimeHM_print hq
      rw [h0, cleanText_fmtTime]
      unfold cleanTime
      rw [show parseTimeHMS00 (fmtTime t) = none from hs ▸ hp,
        show parseTimeHM (fmtTime t) = some t from hs ▸ hq]
  · have h0 : cleanTime s = fmtTime t := by
      unfold cleanTime
      rw [hp]
    obtain ⟨h1, h2⟩ := pHMS00L_bounds hp
    rw [h0, cleanText_fmtTime]
    unfold cleanTime
    rw [show parseTimeHMS00 (fmtTime t) = none from pHMS00L_fmtTimeL t,
      show parseTimeHM (fmtTime t) = some t from pHML_parse t h1 h2]

theorem cleanRow_idem (r : Row) : cleanRow (cleanRow r) = cleanRow r := by
  unfold cleanRow
  simp only [Row.mk.injEq, and_true]
  exact ⟨cleanText_idem _, cleanText_idem _, cleanDate_stable _, cleanTime_stable _,
    cleanText_idem _⟩

theorem contains_append_left {l1 l2 : List String} {a : String}
    (h : l1.contains a = true) : (l1 ++ l2).contains a = true := by
  rw [List.contains_eq_any_beq, List.any_append]
  rw [List.contains_eq_any_beq] at h
  rw [h]
  rfl

theorem contains_append_singleton (l : List String) (a : String) :
    (l ++ [a]).contains a = true := by
  rw [List.contains_eq_any_beq, List.any_append]
  have h : [a].any (a == ·) = true := by simp
  rw [h, Bool.or_true]

theorem clean_dataframe_ok {c : List String} {rs : List Row}
    (hD : c.contains "Date" = true) (hT : c.contains "Time" = true)
    (hL : c.contains "LastUpdated" = true) :
    clean_dataframe ⟨c, rs⟩ = .ok ⟨c, rs.map cleanRow⟩ := by
  unfold clean_dataframe
  dsimp only
  rw [if_pos (by rw [hD, hT]; exact rfl)]
  rw [if_pos hL]

theorem map_cleanRow_idem (l : List Row) :
    List.map cleanRow (List.map cleanRow l) = List.map cleanRow l := by
  rw [List.map_map]
  exact List.map_congr_left fun a _ => cleanRow_idem a

/-- Claim C6: normalization is idempotent — re-normalizing the output of
`clean_dataframe` returns it unchanged (Date, Time, text fields and
`LastUpdated` all fixed by the second application). -/
theorem c6_clean_idempotent (t u : Table) (h : clean_dataframe t = .ok u) :
    clean_dataframe u = .ok u := by
  unfold clean_dataframe at h
  split_ifs at h with hc hlu
  · simp only [Except.ok.injEq] at h
    subst h
    simp only [Bool.and_eq_true] at hc
    rw [clean_dataframe_ok hc.1 hc.2 hlu, map_cleanRow_idem]
  · simp only [Except.ok.injEq] at h
    subst h
    simp only [Bool.and_eq_true] at hc
    rw [clean_dataframe_ok (contains_append_left hc.1) (contains_append_left hc.2)
      (contains_append_singleton t.cols "LastUpdated"), map_cleanRow_idem]

/-- Witness for C6: normalizing the messy sample yields the clean one, and
re-normalizing the clean one is the identity. -/
theorem c6_witness : clean_dataframe cleanedMessy = .ok cleanedMessy :=
  c6_clean_idempotent messyTable cleanedMessy rfl

end Sched

namespace Sched

/-- Claim C8 (code evaluation at the failing input): in the spreadsheet
renderer a booking whose combined Date+Time fails to parse is still rendered:
with one parseable October booking present, the October grid exists and the
unparseable row appears in its day-15 cell, while the PDF renderer's
row-drop excludes it. -/
theorem c8_excel_renders_unparseable_row :
    parse_dt "2026-10-15" "zz" = none ∧
    monthsOfRows excelBugTable.rows = [(2026, 10)] ∧
    excelBugRow ∈ cellData excelBugTable.rows 2026 10 15 ∧
    15 ∈ monthDays 2026 10 ∧
    ((2026, 10), (monthDays 2026 10).map fun d =>
      (d, cellData excelBugTable.rows 2026 10 d)) ∈ excel_grids excelBugTable ∧
    excelBugRow ∉ pdf_rows excelBugTable ∧
    excelBugRow ∉ cellData (pdf_rows excelBugTable) 2026 10 15 := by
  exact ⟨by decide, by decide, by decide, by decide, by decide, by decide, by decide⟩

end Sched
